import Mathlib

/-!
Shallow embedding of `src/main.py` (OSM road scraping pipeline) and of the
components its specification describes.  Python runtime errors are modelled
with an explicit error type and `Except`; tag mappings are association lists
`List (String × String)`; coordinates are exact rationals standing for the
WGS84 degree values.
-/

/-- The Python exceptions the embedded code can raise. -/
inductive PyError where
  | attributeError
  | unboundLocalError
  | typeError
  | keyError
  | indexError
  deriving DecidableEq, Repr

/-- An OSM node as held in an overpy query result: identifier, latitude,
longitude, tag mapping (possibly empty). -/
structure OsmNode where
  id : Int
  lat : Rat
  lon : Rat
  tags : List (String × String)
  deriving DecidableEq, Repr

/-- An OSM way as held in an overpy query result: identifier, the resolved
node objects in geometric order, tag mapping. -/
structure OsmWay where
  id : Int
  nodes : List OsmNode
  tags : List (String × String)
  deriving DecidableEq, Repr

/-- A member of an OSM relation (`member.type`, `member.ref`, `member.role`
in `serialize_overpass_result`). -/
structure OsmMember where
  type : String
  ref : Int
  role : String
  deriving DecidableEq, Repr

/-- An OSM relation as held in an overpy query result. -/
structure OsmRelation where
  id : Int
  tags : List (String × String)
  members : List OsmMember
  deriving DecidableEq, Repr

/-- An overpy query result: `result.ways`, `result.nodes`, `result.relations`. -/
structure OverpassResult where
  ways : List OsmWay
  nodes : List OsmNode
  relations : List OsmRelation
  deriving DecidableEq, Repr

/-- `main.py` line 77: the priority-ordered name-key list `name_tags`. -/
def name_tags : List String := ["ref", "nat_ref", "reg_ref", "alt_name"]

/-- `main.py` line 69: the highway classes `highway_tags`. -/
def highway_tags : List String :=
  ["motorway", "trunk", "primary", "secondary", "tertiary"]

/-- Python's `enumerate`: pair each element with its index. -/
def pyEnumerate (xs : List α) : List (Nat × α) :=
  (List.range xs.length).zip xs

/-- Attribute access `way.tags` inside `find_names` (line 161).  The loop
variable `way` ranges over `enumerate(overpass_result.ways)`, so it is an
`(index, way)` tuple, and a Python tuple has no attribute `tags`: the access
raises `AttributeError` (which the bare `except` then swallows). -/
def tuple_tags (_way : Nat × OsmWay) : Except PyError (List (String × String)) :=
  .error .attributeError

/-- One pass of the inner loop body of `find_names` (lines 160-165) for one
`tag` of `name_tags`.  State is the local variable `value` (`none` while it
is still unbound) together with the accumulated `road_names`.
  * `try: value = way.tags['highway']` — the attribute access raises (see
    `tuple_tags`) and a missing `highway` key would raise `KeyError`; either
    way the bare `except: pass` keeps the previous binding of `value`.
  * `if value:` — reading `value` while it was never assigned raises
    `UnboundLocalError`; an empty string is falsy and skips the branch.
  * `road_names.add(value, tag)` — `set.add` takes exactly one argument, so
    reaching the branch raises `TypeError`. -/
def find_names_step (way : Nat × OsmWay) (_tag : String)
    (st : Option String × List (String × String)) :
    Except PyError (Option String × List (String × String)) :=
  let value : Option String :=
    match tuple_tags way with
    | .error _ => st.1
    | .ok tags =>
      match tags.lookup "highway" with
      | some v => some v
      | none => st.1
  match value with
  | none => .error .unboundLocalError
  | some v =>
    if v = "" then .ok (value, st.2)
    else .error .typeError

/-- The inner `for tag in name_tags` loop of `find_names`. -/
def find_names_tags_loop (way : Nat × OsmWay) :
    List String → Option String × List (String × String) →
    Except PyError (Option String × List (String × String))
  | [], st => .ok st
  | tag :: rest, st =>
    match find_names_step way tag st with
    | .error e => .error e
    | .ok st2 => find_names_tags_loop way rest st2

/-- The outer `for way in enumerate(overpass_result.ways)` loop of
`find_names`. -/
def find_names_ways_loop :
    List (Nat × OsmWay) → Option String × List (String × String) →
    Except PyError (List (String × String))
  | [], st => .ok st.2
  | way :: rest, st =>
    match find_names_tags_loop way name_tags st with
    | .error e => .error e
    | .ok st2 => find_names_ways_loop rest st2

/-- `main.py` lines 156-166, `find_names`: starts from `road_names = set()`
and an unbound local `value`, then runs the nested loops. -/
def find_names (overpass_result : OverpassResult) :
    Except PyError (List (String × String)) :=
  find_names_ways_loop (pyEnumerate overpass_result.ways) (none, [])

/-- The priority rule the spec states for a NameValue (§3, §4.3): scan the
fixed key list and take the value of the first key present.  Stated from the
spec's words, for comparison with what the code does. -/
def spec_first_name_value (tags : List (String × String)) : Option String :=
  match name_tags.filterMap (fun k => tags.lookup k) with
  | [] => none
  | v :: _ => some v

/-! ## `extract_roads`: enrichment, grouping and output paths -/

/-- A QGIS feature of the input layer: its attribute values, positionally
aligned with the layer's field names, plus its geometry (kept abstract as the
identifier of the way it came from — `extract_roads` copies geometries through
untouched). -/
structure QgsFeature where
  geometry : Int
  attributes : List String
  deriving DecidableEq, Repr

/-- A QGIS vector layer as `extract_roads` consumes it: field names, features,
a geometry type code (`wkbType`). -/
structure QgsVectorLayer where
  fields : List String
  features : List QgsFeature
  wkbType : Nat
  deriving DecidableEq, Repr

/-- Modelled from the spec: the column list of `custom_table.csv`
(`main.py` lines 169-171 read it with pandas), a data file that is not in the
repository.  The spec fixes the default attribute schema to exactly these six
keys (§3 EnrichedFeature). -/
def custom_field_names : List String :=
  ["maxheight", "maxweight", "maxwidth", "maxaxleload", "roadowner", "owner_id"]

/-- Lines 173-180: `output_fields` = the input layer's fields followed by
every custom field name not already among them. -/
def output_fields (existing_field_names : List String) : List String :=
  existing_field_names ++
    custom_field_names.filter (fun name => !(existing_field_names.contains name))

/-- Line 210: `attr_dict = dict(zip(existing_field_names, feature.attributes()))`.
`zip` truncates at the shorter list, exactly as in Python. -/
def attr_dict (existing_field_names : List String) (attrs : List String) :
    List (String × String) :=
  existing_field_names.zip attrs

/-- Line 212: `new_attrs = [attr_dict.get(name, None) for name in existing_field_names]`. -/
def new_attrs (existing_field_names : List String) (d : List (String × String)) :
    List (Option String) :=
  existing_field_names.map (fun name => d.lookup name)

/-- Line 213: `extra_attrs = [attr_dict.get(name, None) if name in attr_dict
else None for name in custom_field_names if name not in existing_field_names]`. -/
def extra_attrs (existing_field_names : List String) (d : List (String × String)) :
    List (Option String) :=
  (custom_field_names.filter (fun name => !(existing_field_names.contains name))).map
    (fun name =>
      if (d.map Prod.fst).contains name then d.lookup name else none)

/-- The attribute mapping of the new feature written at line 214: the output
field names paired positionally with `new_attrs + extra_attrs`
(`new_feat.setAttributes(new_attrs + extra_attrs)` against `output_fields`). -/
def enriched_attr_map (existing_field_names : List String) (attrs : List String) :
    List (String × Option String) :=
  (output_fields existing_field_names).zip
    (new_attrs existing_field_names (attr_dict existing_field_names attrs) ++
      extra_attrs existing_field_names (attr_dict existing_field_names attrs))

/-- pathlib's `/` on a relative right operand: join with one separator. -/
def pathJoin (a b : String) : String := a ++ "/" ++ b

/-- Lines 188-190: `dir_path = Path(region) / value`,
`file_name = f"{tag}_{geometry_type}.gpkg"`, `file_path = dir_path / file_name`. -/
def group_file_path (region : String) (value : String) (tag : String)
    (geometry_type : Nat) : String :=
  pathJoin (pathJoin region value) (tag ++ "_" ++ toString geometry_type ++ ".gpkg")

/-- The path §4.7 of the spec prescribes: `<region>/<highway class>/<sanitized
name>.<ext>`, sanitization replacing path separators and spaces with
underscores.  Stated from the spec's words, for comparison with
`group_file_path`. -/
def spec_sanitize (name : String) : String :=
  String.mk (name.data.map (fun c => if c = '/' then '_' else if c = ' ' then '_' else c))

/-- The spec's output path (§4.7), for comparison with `group_file_path`. -/
def spec_group_file_path (region hwclass name ext : String) : String :=
  region ++ "/" ++ hwclass ++ "/" ++ spec_sanitize name ++ "." ++ ext

/-- Line 203: the filter expression `f'{tag} = \x27{value}\x27'` — a feature
passes when its attribute named `tag` equals `value`. -/
def filter_expression (tag value : String) (existing_field_names : List String)
    (f : QgsFeature) : Bool :=
  (attr_dict existing_field_names f.attributes).lookup tag == some value

/-- One output file produced for one `(value, tag)` of `road_names`
(lines 186-218): its path and the enriched features that pass the filter. -/
structure GroupFile where
  path : String
  features : List (Int × List (String × Option String))
  deriving DecidableEq, Repr

/-- The body of the `for (value, tag) in road_names` loop (lines 186-218). -/
def write_group (input_layer : QgsVectorLayer) (region : String)
    (value : String) (tag : String) : GroupFile :=
  { path := group_file_path region value tag input_layer.wkbType
    features :=
      (input_layer.features.filter
          (filter_expression tag value input_layer.fields)).map
        (fun f => (f.geometry, enriched_attr_map input_layer.fields f.attributes)) }

/-- Attribute access `overpass_result.ways` at line 158 when `find_names` is
called from `extract_roads` (line 185): the argument is the QGIS input layer,
and a `QgsVectorLayer` has no attribute `ways`, so the access raises
`AttributeError` before either loop starts. -/
def layer_ways (_input_layer : QgsVectorLayer) : Except PyError (List OsmWay) :=
  .error .attributeError

/-- `find_names(input_layer)` as called at line 185: evaluate
`input_layer.ways` (raises), otherwise run the loops of `find_names`. -/
def find_names_on_layer (input_layer : QgsVectorLayer) :
    Except PyError (List (String × String)) :=
  match layer_ways input_layer with
  | .error e => .error e
  | .ok ways => find_names_ways_loop (pyEnumerate ways) (none, [])

/-- `main.py` lines 168-218, `extract_roads`: read the custom schema (modelled
by `custom_field_names`), compute `road_names = find_names(input_layer)`, then
write one file per `(value, tag)` pair. -/
def extract_roads (input_layer : QgsVectorLayer) (region : String) :
    Except PyError (List GroupFile) :=
  match find_names_on_layer input_layer with
  | .error e => .error e
  | .ok road_names =>
    .ok (road_names.map (fun vt => write_group input_layer region vt.1 vt.2))

/-! ## Region resolution and the main loop -/

/-- Lines 97-98 of `overpass_query`: `relation_id = result_region.relations[0].id`
raises `IndexError` when the boundary query returned no relations;
`area_id = 3600000000 + relation_id` otherwise. -/
def area_id_of (relations : List OsmRelation) : Except PyError Int :=
  match relations with
  | [] => .error .indexError
  | r :: _ => .ok (3600000000 + r.id)

/-- `main.py` lines 232-235: `for region in regions: road_network =
download_data(region); ...`.  The loop body wraps no `try`/`except`, so an
exception raised while resolving one region propagates and ends the run.
`download_data` itself is not defined in the source; Modelled from the spec:
it resolves the region boundary (the resolution step is `overpass_query`
lines 87-98, embedded as `area_id_of` over the boundary query's relations)
and fetches that region's highway classes.  `boundary` gives each region the
relation list its boundary query returns; the result collects each resolved
area identifier. -/
def run_pipeline (boundary : String → List OsmRelation) :
    List String → Except PyError (List Int)
  | [] => .ok []
  | region :: rest =>
    match area_id_of (boundary region) with
    | .error e => .error e
    | .ok a =>
      match run_pipeline boundary rest with
      | .error e => .error e
      | .ok others => .ok (a :: others)

/-! ## `serialize_overpass_result` -/

/-- A serialized way record (lines 121-126): `id`, the referenced node
identifiers in the way's own order, the tag mapping. -/
structure SerializedWay where
  id : Int
  nodes : List Int
  tags : List (String × String)
  deriving DecidableEq, Repr

/-- A serialized node record (lines 129-135). `lat` and `lon` carry the
`float(node.lat)` / `float(node.lon)` conversions; the embedding keeps the
exact rational value. -/
structure SerializedNode where
  id : Int
  lat : Rat
  lon : Rat
  tags : List (String × String)
  deriving DecidableEq, Repr

/-- A serialized relation record (lines 138-147). -/
structure SerializedRelation where
  id : Int
  tags : List (String × String)
  members : List OsmMember
  deriving DecidableEq, Repr

/-- The dictionary built by `serialize_overpass_result` (lines 114-118). -/
structure SerializedData where
  ways : List SerializedWay
  nodes : List SerializedNode
  relations : List SerializedRelation
  deriving DecidableEq, Repr

/-- `main.py` lines 113-148, `serialize_overpass_result`: one record per way
with `nodes = [node.id for node in way.nodes]`, one record per node with
coordinates converted to float and `tags` defaulting to the empty mapping
(`node.tags if hasattr(node, 'tags') else \x7b\x7d` — the model's nodes always
carry a possibly-empty mapping), one record per relation.  Total: no branch
raises. -/
def serialize_overpass_result (result : OverpassResult) : SerializedData :=
  { ways := result.ways.map (fun way =>
      { id := way.id
        nodes := way.nodes.map (fun node => node.id)
        tags := way.tags })
    nodes := result.nodes.map (fun node =>
      { id := node.id
        lat := node.lat
        lon := node.lon
        tags := node.tags })
    relations := result.relations.map (fun relation =>
      { id := relation.id
        tags := relation.tags
        members := relation.members }) }

/-! ## Geometry Builder (spec §4.5) -/

/-- Modelled from the spec: the coordinate lookup of the Geometry Builder
(§4.5), a component absent from `src` (`extract_roads` copies QGIS geometries
through; the overpy rewrite announced in the module docstring's TODO was not
written).  Maps a node identifier to `(longitude, latitude)` using only the
group's own node set. -/
def coord_lookup (nodes : List SerializedNode) (nid : Int) : Option (Rat × Rat) :=
  (nodes.find? (fun n => n.id == nid)).map (fun n => (n.lon, n.lat))

/-- Modelled from the spec: a way's coordinate list (§4.5) — each referenced
node identifier resolved in order, references not locally resolvable dropped. -/
def way_coords (nodes : List SerializedNode) (w : SerializedWay) : List (Rat × Rat) :=
  w.nodes.filterMap (coord_lookup nodes)

/-- Modelled from the spec: the Geometry Builder's line output (§4.5) — one
`(way id, coordinate list)` per way, except that a way whose coordinate list
has fewer than 2 points is dropped entirely (silent filtering, no error). -/
def build_lines (ways : List SerializedWay) (nodes : List SerializedNode) :
    List (Int × List (Rat × Rat)) :=
  (ways.map (fun w => (w.id, way_coords nodes w))).filter
    (fun p => 2 ≤ p.2.length)

/-! ## Geo-File Writer's file-system effect (spec §4.7) -/

/-- A file system: path → content, where a written file's content is the
feature list stored for the group (the GPKG byte encoding itself lives in the
excluded QGIS driver; the spec fixes it to be a pure, timestamp-free function
of the features, so equal stored feature lists mean byte-identical files). -/
def FileSystem : Type :=
  String → Option (List (Int × List (String × Option String)))

/-- Modelled from the spec: writing one group file (§4.7) — the content at the
target path is replaced, every other path is untouched, no versioning. -/
def write_file (fs : FileSystem) (path : String)
    (content : List (Int × List (String × Option String))) : FileSystem :=
  fun p => if p = path then some content else fs p

/-- One run of the Geo-File Writer for one group (§4.7 over the path of
lines 188-190): write the group's features at the group's path. -/
def run_writer (fs : FileSystem) (region value tag : String) (geometry_type : Nat)
    (feats : List (Int × List (String × Option String))) : FileSystem :=
  write_file fs (group_file_path region value tag geometry_type) feats

/-! ## Helper lemmas -/

/-- Looking a key up in the zip of a key list with its own image under `f`
yields `f` of the key, for any key of the list. -/
theorem lookup_zip_map {β : Type} (f : String → β) :
    ∀ (keys : List String) (k : String), k ∈ keys →
      (keys.zip (keys.map f)).lookup k = some (f k) := by
  intro keys
  induction keys with
  | nil => intro k hk; cases hk
  | cons a ks ih =>
    intro k hk
    rcases List.mem_cons.mp hk with h | h
    · subst h
      simp [List.lookup_cons]
    · rw [List.map_cons, List.zip_cons_cons, List.lookup_cons]
      rcases eq_or_ne k a with rfl | hne
      · simp
      · have hb : (k == a) = false := beq_eq_false_iff_ne.mpr hne
        rw [hb]
        exact ih k h

/-- Looking a key up in the zip of a key list with a value list of the same
length succeeds for any key of the list. -/
theorem lookup_zip_isSome {β : Type} :
    ∀ (keys : List String) (vals : List β) (k : String), k ∈ keys →
      vals.length = keys.length → (keys.zip vals).lookup k ≠ none := by
  intro keys
  induction keys with
  | nil => intro vals k hk; cases hk
  | cons a ks ih =>
    intro vals k hk hl
    match vals with
    | [] => simp at hl
    | b :: vs =>
      rw [List.zip_cons_cons, List.lookup_cons]
      rcases eq_or_ne k a with rfl | hne
      · simp
      · have hb : (k == a) = false := beq_eq_false_iff_ne.mpr hne
        rw [hb]
        rcases List.mem_cons.mp hk with h | h
        · exact absurd h hne
        · exact ih vs k h (by simpa using hl)

/-- A lookup that succeeds in the left part of an append succeeds with the
same value in the appended list. -/
theorem lookup_append_left {β : Type} (xs ys : List (String × β)) (k : String)
    (v : β) (h : xs.lookup k = some v) : (xs ++ ys).lookup k = some v := by
  induction xs with
  | nil => simp [List.lookup_nil] at h
  | cons p ps ih =>
    rw [List.cons_append, List.lookup_cons]
    rw [List.lookup_cons] at h
    rcases hk : k == p.1 with _ | _
    · simp only [hk] at h ⊢
      exact ih h
    · simpa [hk] using h

/-! ## Claim theorems -/

/-- C1: the claim says `find_names` returns the distinct NameValues obtained
by first-matching-key scanning.  In the code the loop variable ranges over
`enumerate(...)` tuples, the `try` body reads the `highway` key instead of
the name key, and the first read of `if value:` hits an unbound local: on a
collection holding one way tagged `ref = SS7` — whose NameValue under the
spec's rule is `SS7` — `find_names` raises `UnboundLocalError` instead of
returning `{SS7}`. -/
theorem find_names_raises_on_named_way :
    find_names { ways := [{ id := 1, nodes := [], tags := [("ref", "SS7")] }],
                 nodes := [], relations := [] } = .error .unboundLocalError ∧
    spec_first_name_value [("ref", "SS7")] = some "SS7" := by
  constructor <;> rfl

/-- C7: the claim says a collection in which no way carries a recognized name
key yields the empty set without error.  With any way present at all — here a
single way tagged only `highway = primary` — `find_names` raises
`UnboundLocalError`; only the wholly empty way list returns the empty set. -/
theorem find_names_raises_on_unnamed_way :
    find_names { ways := [{ id := 2, nodes := [], tags := [("highway", "primary")] }],
                 nodes := [], relations := [] } = .error .unboundLocalError ∧
    find_names { ways := [], nodes := [], relations := [] } = .ok [] := by
  constructor <;> rfl

/-- C3: the claim says ways carrying a NameValue are partitioned into groups,
one group per way.  `extract_roads` computes `road_names =
find_names(input_layer)`, and a `QgsVectorLayer` has no attribute `ways`, so
the call raises `AttributeError` before any group is formed: on a layer whose
single feature carries `ref = SS7` — a NameValue under the spec's rule — the
way is assigned to zero groups, not exactly one. -/
theorem extract_roads_forms_no_groups :
    extract_roads { fields := ["highway", "ref"],
                    features := [{ geometry := 7, attributes := ["primary", "SS7"] }],
                    wkbType := 2 } "Lazio" = .error .attributeError ∧
    spec_first_name_value [("highway", "primary"), ("ref", "SS7")] = some "SS7" := by
  constructor <;> rfl

/-- C4: whenever the boundary query returns at least one administrative
relation, the resolved area identifier is `3600000000` plus the identifier of
the first returned relation (lines 97-98). -/
theorem area_id_first_relation (r : OsmRelation) (rs : List OsmRelation) :
    area_id_of (r :: rs) = .ok (3600000000 + r.id) := rfl

/-- A boundary-query table used to exercise the pipeline: `Lazio` resolves to
one relation, every other region to none. -/
def demo_boundary : String → List OsmRelation :=
  fun region =>
    if region = "Lazio" then [{ id := 40784, tags := [], members := [] }] else []

/-- C5 counterexample: the claim says a region whose boundary query returns
zero relations is skipped and the run continues with the next region.  With
`Molise` resolving to zero relations and `Lazio` resolving normally, the run
over `[Molise, Lazio]` ends in `IndexError` — while `Lazio` alone succeeds, so
the abort is caused solely by the unhandled failure on `Molise`, and `Lazio`
is never processed. -/
theorem region_failure_aborts_run :
    run_pipeline demo_boundary ["Molise", "Lazio"] = .error .indexError ∧
    run_pipeline demo_boundary ["Lazio"] = .ok [3600040784] := by
  constructor <;> rfl

/-- C5 amended: if the first region's boundary query returns zero relations,
`result_region.relations[0]` raises `IndexError`; neither `overpass_query` nor
`main`'s loop catches it, so the whole run fails and no later region is
processed. -/
theorem region_failure_propagates (boundary : String → List OsmRelation)
    (region : String) (rest : List String) (h : boundary region = []) :
    run_pipeline boundary (region :: rest) = .error .indexError := by
  simp only [run_pipeline, h, area_id_of]

/-- Witness for `region_failure_propagates` at the concrete table
`demo_boundary` and run `[Molise, Lazio]`. -/
theorem region_failure_propagates_witness :
    run_pipeline demo_boundary ["Molise", "Lazio"] = .error .indexError :=
  region_failure_propagates demo_boundary "Molise" ["Lazio"] (by rfl)

/-- C2: for a feature of a layer with distinct field names (one attribute per
field), the enriched attribute mapping's key set contains every native key and
every default schema key, and a default key that is also a native field keeps
its native value — the first (and, by `Nodup`, only) binding of the key in the
output mapping is exactly the native binding, which is present, never null. -/
theorem extract_roads_enrichment (existing_field_names attrs : List String)
    (_hnodup : existing_field_names.Nodup)
    (hlen : attrs.length = existing_field_names.length) :
    (∀ k, k ∈ existing_field_names ∨ k ∈ custom_field_names →
        k ∈ output_fields existing_field_names) ∧
    (∀ k, k ∈ custom_field_names → k ∈ existing_field_names →
        (enriched_attr_map existing_field_names attrs).lookup k =
          some ((attr_dict existing_field_names attrs).lookup k) ∧
        (attr_dict existing_field_names attrs).lookup k ≠ none) := by
  constructor
  · intro k hk
    rcases hk with h | h
    · exact List.mem_append_left _ h
    · by_cases he : k ∈ existing_field_names
      · exact List.mem_append_left _ he
      · refine List.mem_append_right _ (List.mem_filter.mpr ⟨h, ?_⟩)
        simp [List.contains, he]
  · intro k hc he
    refine ⟨?_, lookup_zip_isSome existing_field_names attrs k he hlen⟩
    have hzip : enriched_attr_map existing_field_names attrs =
        existing_field_names.zip
            (new_attrs existing_field_names (attr_dict existing_field_names attrs)) ++
          (custom_field_names.filter
              (fun name => !(existing_field_names.contains name))).zip
            (extra_attrs existing_field_names (attr_dict existing_field_names attrs)) := by
      unfold enriched_attr_map output_fields
      exact List.zip_append (by simp [new_attrs])
    rw [hzip]
    exact lookup_append_left _ _ _ _
      (lookup_zip_map (fun n => (attr_dict existing_field_names attrs).lookup n)
        existing_field_names k he)

/-- Witness for `extract_roads_enrichment`: a native feature
`highway = primary, ref = SS7, maxweight = 30` keeps `maxweight = 30` in the
enriched mapping. -/
theorem extract_roads_enrichment_witness :
    (enriched_attr_map ["highway", "ref", "maxweight"]
        ["primary", "SS7", "30"]).lookup "maxweight" = some (some "30") := by
  have h := (extract_roads_enrichment ["highway", "ref", "maxweight"]
      ["primary", "SS7", "30"] (by decide) (by decide)).2
      "maxweight" (by decide) (by decide)
  rw [h.1]
  rfl

/-- C6: a way whose locally resolvable coordinate list has fewer than 2
points yields no line in the builder's output (and the builder is a total
function, so nothing is raised), while every sibling way with at least 2
resolvable coordinates is still emitted. -/
theorem builder_drops_short_ways (ways : List SerializedWay)
    (nodes : List SerializedNode) (w : SerializedWay)
    (_hw : w ∈ ways) (hshort : (way_coords nodes w).length < 2) :
    (w.id, way_coords nodes w) ∉ build_lines ways nodes ∧
    ∀ w2 ∈ ways, 2 ≤ (way_coords nodes w2).length →
      (w2.id, way_coords nodes w2) ∈ build_lines ways nodes := by
  constructor
  · intro hmem
    have h2 : 2 ≤ (way_coords nodes w).length := by
      simpa using (List.mem_filter.mp hmem).2
    omega
  · intro w2 hw2 hlen
    refine List.mem_filter.mpr
      ⟨List.mem_map_of_mem (fun v => (v.id, way_coords nodes v)) hw2, ?_⟩
    simpa using hlen

/-- Nodes for the Geometry Builder witness. -/
def demo_nodes : List SerializedNode :=
  [{ id := 1, lat := 0, lon := 0, tags := [] },
   { id := 2, lat := 1, lon := 1, tags := [] }]

/-- A way referencing one resolvable node (node 9 is absent from the group). -/
def demo_short_way : SerializedWay :=
  { id := 100, nodes := [1, 9], tags := [("ref", "SS7")] }

/-- A sibling way referencing two resolvable nodes. -/
def demo_long_way : SerializedWay :=
  { id := 200, nodes := [1, 2], tags := [("ref", "SS7")] }

/-- Witness for `builder_drops_short_ways`: the one-coordinate way is dropped,
its two-coordinate sibling in the same group is emitted. -/
theorem builder_drops_short_ways_witness :
    (demo_short_way.id, way_coords demo_nodes demo_short_way) ∉
        build_lines [demo_short_way, demo_long_way] demo_nodes ∧
    (demo_long_way.id, way_coords demo_nodes demo_long_way) ∈
        build_lines [demo_short_way, demo_long_way] demo_nodes := by
  have h := builder_drops_short_ways [demo_short_way, demo_long_way] demo_nodes
      demo_short_way (by decide) (by decide)
  exact ⟨h.1, h.2 demo_long_way (by decide) (by decide)⟩

/-- C8 counterexample: for the group of name `SS 7`, key `ref`, geometry type
`2` in region `Lazio`, the code writes `Lazio/SS 7/ref_2.gpkg` — the name is a
directory (not the sanitized file stem), the highway class never appears, and
the space survives — which differs from the spec's
`<region>/<class>/<sanitized name>.<ext>` path `Lazio/primary/SS_7.gpkg`. -/
theorem writer_path_not_sanitized :
    group_file_path "Lazio" "SS 7" "ref" 2 = "Lazio/SS 7/ref_2.gpkg" ∧
    spec_group_file_path "Lazio" "primary" "SS 7" "gpkg" = "Lazio/primary/SS_7.gpkg" ∧
    group_file_path "Lazio" "SS 7" "ref" 2 ≠
      spec_group_file_path "Lazio" "primary" "SS 7" "gpkg" := by
  refine ⟨rfl, rfl, ?_⟩
  decide

/-- C8 amended: the Writer's path is
`<region>/<name value>/<tag key>_<geometry type>.gpkg` — the name value is a
directory component, the file stem is the matching tag key and geometry type —
and no character of the name is sanitized: in particular a space in the name
value survives into the path. -/
theorem writer_path_shape (region value tag : String) (geometry_type : Nat) :
    (group_file_path region value tag geometry_type).data =
      region.data ++ "/".data ++ value.data ++ "/".data ++ tag.data ++
        "_".data ++ (toString geometry_type).data ++ ".gpkg".data ∧
    (' ' ∈ value.data → ' ' ∈ (group_file_path region value tag geometry_type).data) := by
  have hdata : (group_file_path region value tag geometry_type).data =
      region.data ++ "/".data ++ value.data ++ "/".data ++ tag.data ++
        "_".data ++ (toString geometry_type).data ++ ".gpkg".data := by
    simp [group_file_path, pathJoin, String.data_append]
  refine ⟨hdata, fun hsp => ?_⟩
  rw [hdata]
  simp [List.mem_append, hsp]

/-- Witness for `writer_path_shape`: the space of name `SS 7` survives into
the written path. -/
theorem writer_path_shape_witness :
    ' ' ∈ (group_file_path "Lazio" "SS 7" "ref" 2).data :=
  (writer_path_shape "Lazio" "SS 7" "ref" 2).2 (by decide)

/-- C9: writing the same features for the same group twice leaves the file
system exactly as one run leaves it — the stored content, hence the encoded
bytes of the timestamp-free encoding, are identical — and a run stores the
group's features at the group's path whatever was there before: the previous
file is replaced, with no versioning. -/
theorem writer_idempotent_overwrite (fs : FileSystem) (region value tag : String)
    (geometry_type : Nat) (feats : List (Int × List (String × Option String))) :
    run_writer (run_writer fs region value tag geometry_type feats)
        region value tag geometry_type feats =
      run_writer fs region value tag geometry_type feats ∧
    run_writer fs region value tag geometry_type feats
        (group_file_path region value tag geometry_type) = some feats := by
  constructor
  · funext p
    by_cases h : p = group_file_path region value tag geometry_type <;>
      simp [run_writer, write_file, h]
  · simp [run_writer, write_file]

/-- C10: `serialize_overpass_result` is total (it is a plain function, no
branch raises) and structure-preserving: one record per way carrying the way's
node-reference identifiers in the way's own order and its tags, one record per
node carrying its coordinates and a tag mapping that is empty exactly when the
node has no tags. -/
theorem serialize_overpass_result_structure (result : OverpassResult) :
    (serialize_overpass_result result).ways.length = result.ways.length ∧
    (serialize_overpass_result result).nodes.length = result.nodes.length ∧
    (∀ i : Nat, ((serialize_overpass_result result).ways[i]?).map
          (fun r => (r.id, r.nodes, r.tags)) =
        (result.ways[i]?).map
          (fun w => (w.id, w.nodes.map (fun n => n.id), w.tags))) ∧
    (∀ i : Nat, ((serialize_overpass_result result).nodes[i]?).map
          (fun r => (r.id, r.lat, r.lon, r.tags)) =
        (result.nodes[i]?).map (fun n => (n.id, n.lat, n.lon, n.tags))) ∧
    (∀ i : Nat, ∀ n : OsmNode, result.nodes[i]? = some n → n.tags = [] →
        ((serialize_overpass_result result).nodes[i]?).map SerializedNode.tags =
          some []) := by
  refine ⟨by simp [serialize_overpass_result],
    by simp [serialize_overpass_result], ?_, ?_, ?_⟩
  · intro i
    simp only [serialize_overpass_result, List.getElem?_map, Option.map_map]
    cases result.ways[i]? <;> rfl
  · intro i
    simp only [serialize_overpass_result, List.getElem?_map, Option.map_map]
    cases result.nodes[i]? <;> rfl
  · intro i n h hn
    simp [serialize_overpass_result, List.getElem?_map, h, hn]

/-- A node with no tags, for the serializer witness. -/
def demo_bare_node : OsmNode := { id := 5, lat := 41, lon := 12, tags := [] }

/-- A one-node query result for the serializer witness. -/
def demo_result : OverpassResult :=
  { ways := [], nodes := [demo_bare_node], relations := [] }

/-- Witness for `serialize_overpass_result_structure`: the record of a node
with no tags carries the empty tag mapping. -/
theorem serialize_overpass_result_structure_witness :
    ((serialize_overpass_result demo_result).nodes[0]?).map SerializedNode.tags =
      some [] :=
  (serialize_overpass_result_structure demo_result).2.2.2.2 0 demo_bare_node rfl rfl
